import Mathlib

/-!
# Verification of `scripts/deploy.js`

A shallow embedding of the deployment script `scripts/deploy.js` of the
`checkout-js` repository, together with proofs about the properties its
specification claims.

The script is a linear pipeline: argument check → configuration load →
build → remote directory provisioning → concurrent file uploads → banner.
We embed:

* the pipeline control flow as a pure function `runScript` from an
  environment record (the results the outside world hands each I/O call)
  to the list of observable effects the run performs plus its outcome;
* the promise plumbing of `WebDAVHelper.UploadFiles`
  (`Promise.all(promises).finally(resolve).catch(reject)` inside a
  `new Promise` executor) as a small settlement model with explicit
  settle times, following ECMAScript promise semantics: `Promise.all`
  rejects at the earliest rejection, `finally` runs its callback on any
  settlement and passes the outcome through, `catch` runs on rejection,
  and the first `resolve`/`reject` call on an executor wins;
* the deployment-identifier generator
  `new Date().toISOString().replace(/\:/g, "_").replace("T", "").replace(/\..+/, "")`
  as character-list transformations applied to the ISO-8601 rendering of
  a broken-down UTC datetime.
-/

set_option autoImplicit false

namespace Deploy

/-- Embeds the predicate `(o) => o.includes(".")` used by `UploadFiles`
and by the `ctx.fileCount` computation: the file name contains a dot. -/
def hasDot (s : String) : Bool := s.data.contains '.'

/-- The credentials configuration `env.{env}.json`: three string fields.
A key that is absent or the empty string is falsy in the script's check;
we represent both by `""`. -/
structure Config where
  WEBDAV_STOREHASH : String
  WEBDAV_USERNAME : String
  WEBDAV_PASSWORD : String
deriving DecidableEq

/-- Embeds `!config.WEBDAV_STOREHASH || !config.WEBDAV_USERNAME || !config.WEBDAV_PASSWORD`. -/
def incompleteConfig (c : Config) : Bool :=
  c.WEBDAV_STOREHASH = "" || c.WEBDAV_USERNAME = "" || c.WEBDAV_PASSWORD = ""

/-- The key/value pairs of the sample file the catch block writes:
`{ WEBDAV_STOREHASH: "", WEBDAV_USERNAME: "", WEBDAV_PASSWORD: "" }`
serialized by `JSON.stringify`. -/
def samplePairs : List (String × String) :=
  [("WEBDAV_STOREHASH", ""), ("WEBDAV_USERNAME", ""), ("WEBDAV_PASSWORD", "")]

/-- The path the sample file is written to, `../env.${env}.json`
(the directory prefix `__dirname/..` is elided). -/
def samplePath (envName : String) : String := "env." ++ envName ++ ".json"

/-! ## Promise settlement model for `UploadFiles`

Each individual upload is represented by its settle time (a `Nat` tick)
and its result. `UploadFiles` builds one promise per dot-named file and
combines them with `Promise.all(promises).finally(resolve).catch(reject)`
inside a `new Promise((resolve, reject) => …)` executor. -/

/-- The settled state of a JavaScript promise. -/
inductive POutcome (E : Type) where
  | fulfilled : POutcome E
  | rejected : E → POutcome E
deriving DecidableEq

/-- The earliest-settling rejection among a list of settled promises
(ties broken by list order), if any: this is the rejection `Promise.all`
adopts. -/
def firstRejection {E : Type} : List (Nat × Except E Unit) → Option (Nat × E)
  | [] => none
  | (_, Except.ok _) :: ps => firstRejection ps
  | (t, Except.error e) :: ps =>
    match firstRejection ps with
    | none => some (t, e)
    | some (u, f) => if u < t then some (u, f) else some (t, e)

/-- The time at which the last of the given promises settles. -/
def maxSettleTime {E : Type} (ps : List (Nat × Except E Unit)) : Nat :=
  ps.foldr (fun p m => max p.1 m) 0

/-- ECMAScript `Promise.all`: fulfills once every input promise has
fulfilled; rejects as soon as the first input promise rejects, with that
promise's reason (it does not wait for the remaining promises). -/
def promiseAll {E : Type} (ps : List (Nat × Except E Unit)) : Nat × Except E Unit :=
  match firstRejection ps with
  | some (t, e) => (t, Except.error e)
  | none => (maxSettleTime ps, Except.ok ())

/-- A call placed on the outer executor's `resolve`/`reject` pair. -/
inductive SettleCall (E : Type) where
  | resolveCall : SettleCall E
  | rejectCall : E → SettleCall E

/-- First-call-wins resolution of an executor: scan the calls, keeping
the current winner unless a strictly earlier call appears (a call at the
same tick that is invoked later never wins). -/
def firstSettleFrom {E : Type} : Nat × SettleCall E → List (Nat × SettleCall E) → Nat × SettleCall E
  | c, [] => c
  | c, c' :: cs => if c'.1 < c.1 then firstSettleFrom c' cs else firstSettleFrom c cs

/-- The settlement of the promise returned by `UploadFiles`, given the
settlements `ps` of the per-file upload promises. Embeds
`Promise.all(promises).finally(resolve).catch(reject)`:
`finally` invokes `resolve` at the tick `Promise.all` settles, whatever
the outcome, and passes the outcome through; `catch` then invokes
`reject` at the same tick when that outcome is a rejection. The executor
settles on the first call. -/
def uploadFilesSettle {E : Type} (ps : List (Nat × Except E Unit)) : Nat × POutcome E :=
  let pAll := promiseAll ps
  let laterCalls : List (Nat × SettleCall E) :=
    match pAll.2 with
    | Except.ok _ => []
    | Except.error e => [(pAll.1, SettleCall.rejectCall e)]
  match firstSettleFrom (pAll.1, SettleCall.resolveCall) laterCalls with
  | (t, SettleCall.resolveCall) => (t, POutcome.fulfilled)
  | (t, SettleCall.rejectCall e) => (t, POutcome.rejected e)

/-- One `UploadFiles(src, dest, files)` call, per-file settlements given
by `result`: only the dot-named files get an upload promise
(`files.filter((o) => o.includes(".")).map(uploader)`). -/
def uploadBatchSettle (files : List String) (result : String → Nat × Except String Unit) :
    Nat × POutcome String :=
  uploadFilesSettle ((files.filter hasDot).map result)

/-! ## The deployment-identifier generator

`new Date().toISOString().replace(/\:/g, "_").replace("T", "").replace(/\..+/, "")`
on a broken-down UTC datetime. -/

/-- A broken-down UTC datetime as `Date#toISOString` renders it. -/
structure DateTime where
  year : Nat
  month : Nat
  day : Nat
  hour : Nat
  minute : Nat
  second : Nat
  ms : Nat
deriving DecidableEq

/-- The decimal digit characters used by `toISOString`'s zero-padded
fields. -/
def digitChar : Nat → Char
  | 0 => '0'
  | 1 => '1'
  | 2 => '2'
  | 3 => '3'
  | 4 => '4'
  | 5 => '5'
  | 6 => '6'
  | 7 => '7'
  | 8 => '8'
  | 9 => '9'
  | _ => '*'

/-- Two-digit zero-padded decimal rendering. -/
def pad2 (n : Nat) : List Char := [digitChar (n / 10), digitChar (n % 10)]

/-- Three-digit zero-padded decimal rendering (milliseconds). -/
def pad3 (n : Nat) : List Char := digitChar (n / 100) :: pad2 (n % 100)

/-- Four-digit zero-padded decimal rendering (year). -/
def pad4 (n : Nat) : List Char := pad2 (n / 100) ++ pad2 (n % 100)

/-- `Date#toISOString`: `YYYY-MM-DDTHH:mm:ss.sssZ` (years 0–9999). -/
def isoChars (dt : DateTime) : List Char :=
  pad4 dt.year ++ '-' :: pad2 dt.month ++ '-' :: pad2 dt.day
    ++ 'T' :: pad2 dt.hour ++ ':' :: pad2 dt.minute ++ ':' :: pad2 dt.second
    ++ '.' :: pad3 dt.ms ++ ['Z']

/-- `.replace(/\:/g, "_")`: every colon becomes an underscore. -/
def replaceColons (cs : List Char) : List Char :=
  cs.map (fun c => if c = ':' then '_' else c)

/-- `.replace("T", "")`: the first occurrence of `T` is deleted. -/
def removeFirstT : List Char → List Char
  | [] => []
  | c :: cs => if c = 'T' then cs else c :: removeFirstT cs

/-- `.replace(/\..+/, "")`: the first dot that is followed by at least
one character, and everything after it, is deleted. -/
def stripFromDot : List Char → List Char
  | [] => []
  | c :: cs => if c = '.' ∧ cs ≠ [] then [] else c :: stripFromDot cs

/-- The deployment identifier: `ctx.timestamp` at line 131 of the script. -/
def genId (dt : DateTime) : List Char :=
  stripFromDot (removeFirstT (replaceColons (isoChars dt)))

/-- The identifier as a string. -/
def genIdStr (dt : DateTime) : String := String.mk (genId dt)

/-- Strict lexicographic order on character lists (by Unicode code
point), the order in which identifier strings are compared. -/
def lexLt : List Char → List Char → Bool
  | _, [] => false
  | [], _ :: _ => true
  | a :: as, b :: bs => if a < b then true else if a = b then lexLt as bs else false

/-- Field ranges `Date#toISOString` produces for dates between year 0
and year 9999. -/
def ValidDT (dt : DateTime) : Prop :=
  dt.year ≤ 9999 ∧ 1 ≤ dt.month ∧ dt.month ≤ 12 ∧ 1 ≤ dt.day ∧ dt.day ≤ 31 ∧
    dt.hour ≤ 23 ∧ dt.minute ≤ 59 ∧ dt.second ≤ 59 ∧ dt.ms ≤ 999

instance (dt : DateTime) : Decidable (ValidDT dt) := by
  unfold ValidDT
  infer_instance

/-- The datetime truncated to whole seconds, packed into one number that
orders like the tuple `(year, month, day, hour, minute, second)`. -/
def toSecKey (dt : DateTime) : Nat :=
  ((((dt.year * 100 + dt.month) * 100 + dt.day) * 100 + dt.hour) * 100 + dt.minute) * 100 +
    dt.second

/-- The full instant, milliseconds included. -/
def toMsKey (dt : DateTime) : Nat := toSecKey dt * 1000 + dt.ms

/-! ## The pipeline -/

/-- The observable effects a run of the script performs, in order.
(The decorative banner `console.log`s at the top of the script are not
modelled.) -/
inductive Effect where
  | printUsage : Effect
  | printMissingConfig : Effect
  | printIncompleteConfig : Effect
  | writeFile (path : String) (content : List (String × String)) : Effect
  | runBuild : Effect
  | mkdir (path : String) : Effect
  | listDir (path : String) : Effect
  | upload (dest : String) (file : String) : Effect
  | printBanner : Effect
deriving DecidableEq

/-- How the process ends. -/
inductive Outcome where
  | usageExit : Outcome
  | configMissingExit : Outcome
  | configIncompleteExit : Outcome
  | failed (msg : String) : Outcome
  | success : Outcome
deriving DecidableEq

/-- Everything the outside world decides during one run: the command
line, the configuration file's parse, and the result of each I/O call
the script makes. `uploadResult dest file` gives the settle time and
result of the `wfs.writeFile` for `file` uploaded into `dest`. -/
structure Env where
  argv2 : Option String
  configFile : Option Config
  buildResult : Except String Unit
  mkdirRootResult : Except String Unit
  mkdirStaticResult : Except String Unit
  listDistResult : Except String (List String)
  listStaticResult : Except String (List String)
  uploadResult : String → String → Nat × Except String Unit
  now : DateTime

/-- `ctx.destFolder = `/content/checkout/${ctx.timestamp}``. -/
def destFolder (dt : DateTime) : String := "/content/checkout/" ++ genIdStr dt

/-- `path.join(__dirname, "../dist")` (directory prefix elided). -/
def distFolder : String := "dist"

/-- `path.join(__dirname, "../dist/static")` (directory prefix elided). -/
def distStaticFolder : String := "dist/static"

/-- The `wfs.writeFile` calls one `UploadFiles(src, dest, files)`
invocation issues, in issue order: one per dot-named file. -/
def uploadEffects (dest : String) (files : List String) : List Effect :=
  (files.filter hasDot).map (fun f => Effect.upload dest f)

/-- `ctx.fileCount = [].concat(ctx.distFiles, ctx.distStaticFiles).filter((o) => o.includes(".")).length`. -/
def fileCount (distFiles staticFiles : List String) : Nat :=
  ((distFiles ++ staticFiles).filter hasDot).length

/-- The whole script as a function from the environment to the ordered
effect trace and the outcome. Control flow follows the source: the `env`
argument check, the config `try/catch` with its sample-file write, then
the three `Listr` tasks run in sequence, each task's failure stopping
the pipeline (`exitOnError` default) so `finished` (the banner) runs
only when every task resolved. The Deploy task awaits the two
`UploadFiles` calls in order and branches on each settlement. -/
def runScript (e : Env) : List Effect × Outcome :=
  match e.argv2 with
  | none => ([Effect.printUsage], Outcome.usageExit)
  | some envName =>
    match e.configFile with
    | none =>
      ([Effect.printMissingConfig, Effect.writeFile (samplePath envName) samplePairs],
        Outcome.configMissingExit)
    | some cfg =>
      if incompleteConfig cfg then
        ([Effect.printIncompleteConfig], Outcome.configIncompleteExit)
      else
        match e.buildResult with
        | Except.error msg => ([Effect.runBuild], Outcome.failed msg)
        | Except.ok _ =>
          let d := destFolder e.now
          match e.mkdirRootResult with
          | Except.error msg => ([Effect.runBuild, Effect.mkdir d], Outcome.failed msg)
          | Except.ok _ =>
            match e.mkdirStaticResult with
            | Except.error msg =>
              ([Effect.runBuild, Effect.mkdir d, Effect.mkdir (d ++ "/static")],
                Outcome.failed msg)
            | Except.ok _ =>
              match e.listDistResult with
              | Except.error msg =>
                ([Effect.runBuild, Effect.mkdir d, Effect.mkdir (d ++ "/static"),
                  Effect.listDir distFolder], Outcome.failed msg)
              | Except.ok distFiles =>
                match e.listStaticResult with
                | Except.error msg =>
                  ([Effect.runBuild, Effect.mkdir d, Effect.mkdir (d ++ "/static"),
                    Effect.listDir distFolder, Effect.listDir distStaticFolder],
                    Outcome.failed msg)
                | Except.ok staticFiles =>
                  let base := [Effect.runBuild, Effect.mkdir d, Effect.mkdir (d ++ "/static"),
                    Effect.listDir distFolder, Effect.listDir distStaticFolder]
                  match (uploadBatchSettle distFiles (e.uploadResult d)).2 with
                  | POutcome.rejected msg =>
                    (base ++ uploadEffects d distFiles, Outcome.failed msg)
                  | POutcome.fulfilled =>
                    match (uploadBatchSettle staticFiles (e.uploadResult (d ++ "/static"))).2 with
                    | POutcome.rejected msg =>
                      (base ++ uploadEffects d distFiles
                        ++ uploadEffects (d ++ "/static") staticFiles, Outcome.failed msg)
                    | POutcome.fulfilled =>
                      (base ++ uploadEffects d distFiles
                        ++ uploadEffects (d ++ "/static") staticFiles
                        ++ [Effect.printBanner], Outcome.success)

/-- Recognizes remote directory creation effects. -/
def isMkdirE : Effect → Bool
  | Effect.mkdir _ => true
  | _ => false

/-- Recognizes upload effects (to any destination). -/
def isUploadE : Effect → Bool
  | Effect.upload _ _ => true
  | _ => false

/-- Recognizes upload effects into one particular destination. -/
def isUploadTo (dest : String) : Effect → Bool
  | Effect.upload d _ => d = dest
  | _ => false

/-- Recognizes local file writes. -/
def isWriteE : Effect → Bool
  | Effect.writeFile _ _ => true
  | _ => false

/-- `P`-effects all occur strictly before `Q`-effects in the trace. -/
def allBefore (P Q : Effect → Bool) (tr : List Effect) : Prop :=
  ∀ i j, (hi : i < tr.length) → (hj : j < tr.length) →
    P (tr.get ⟨i, hi⟩) = true → Q (tr.get ⟨j, hj⟩) = true → i < j

/-- A complete credentials file. -/
def okConfig : Config := ⟨"abc123", "user", "pass"⟩

/-- A run invoked for `sandbox` whose `env.sandbox.json` is missing. -/
def sampleEnvMissing : Env where
  argv2 := some "sandbox"
  configFile := none
  buildResult := Except.ok ()
  mkdirRootResult := Except.ok ()
  mkdirStaticResult := Except.ok ()
  listDistResult := Except.ok []
  listStaticResult := Except.ok []
  uploadResult := fun _ _ => (0, Except.ok ())
  now := ⟨2024, 5, 6, 7, 8, 9, 123⟩

/-- A run with no command-line argument. -/
def sampleEnvNoArg : Env := { sampleEnvMissing with argv2 := none }

/-- A fully provisioned run in which the upload of `auto-loader.js`
fails at tick 1 while every other upload succeeds at tick 5. -/
def sampleEnvFailUpload : Env where
  argv2 := some "sandbox"
  configFile := some okConfig
  buildResult := Except.ok ()
  mkdirRootResult := Except.ok ()
  mkdirStaticResult := Except.ok ()
  listDistResult := Except.ok ["auto-loader.js", "static"]
  listStaticResult := Except.ok ["main.css"]
  uploadResult := fun _ f =>
    if f = "auto-loader.js" then (1, Except.error "403") else (5, Except.ok ())
  now := ⟨2024, 5, 6, 7, 8, 9, 123⟩

/-- A run whose build exits non-zero. -/
def sampleEnvBuildFail : Env :=
  { sampleEnvFailUpload with buildResult := Except.error "build broke" }

/-- Per-file settlements for the C1 failing input: `b.css` rejects at
tick 1, `a.js` fulfills at tick 5. -/
def failingUploadResult (f : String) : Nat × Except String Unit :=
  if f = "b.css" then (1, Except.error "403 Forbidden") else (5, Except.ok ())

/-- Datetimes used as concrete inputs: two distinct instants inside the
same second, and one a second later. -/
def dtA : DateTime := ⟨2024, 5, 6, 7, 8, 9, 100⟩

/-- A strictly later instant within the same second as `dtA`. -/
def dtB : DateTime := ⟨2024, 5, 6, 7, 8, 9, 900⟩

/-- One second after `dtA`. -/
def dtC : DateTime := ⟨2024, 5, 6, 7, 8, 10, 0⟩

/-! ## Helper lemmas -/

/-- The promise `UploadFiles` returns always fulfills: `finally` calls
`resolve` at the settlement tick of `Promise.all` whatever its outcome,
and that first call wins over the `reject` the trailing `catch` issues. -/
theorem uploadFilesSettle_fulfilled {E : Type} (ps : List (Nat × Except E Unit)) :
    (uploadFilesSettle ps).2 = POutcome.fulfilled := by
  cases h : (promiseAll ps).2 <;> simp [uploadFilesSettle, h, firstSettleFrom]

theorem uploadBatchSettle_fulfilled (files : List String)
    (result : String → Nat × Except String Unit) :
    (uploadBatchSettle files result).2 = POutcome.fulfilled :=
  uploadFilesSettle_fulfilled _

/-! ## Claims -/

/-- C9: with no positional environment argument the script prints the
usage message and exits early: the run's whole effect trace is that one
message, so no configuration load, build, or remote operation occurs,
and the outcome is a clean early exit, not a crash. -/
theorem claim_C9_no_arg_usage_exit (e : Env) (h : e.argv2 = none) :
    runScript e = ([Effect.printUsage], Outcome.usageExit) := by
  unfold runScript
  rw [h]

theorem claim_C9_witness :
    sampleEnvNoArg.argv2 = none ∧
      runScript sampleEnvNoArg = ([Effect.printUsage], Outcome.usageExit) :=
  ⟨rfl, claim_C9_no_arg_usage_exit sampleEnvNoArg rfl⟩

/-- C6: when the configuration file is missing, the run reports it,
writes a template file whose content is exactly the three expected keys
each with the empty string value, and halts with no build attempted. -/
theorem claim_C6_missing_config_template (e : Env) (envName : String)
    (ha : e.argv2 = some envName) (hc : e.configFile = none) :
    runScript e =
      ([Effect.printMissingConfig, Effect.writeFile (samplePath envName) samplePairs],
        Outcome.configMissingExit)
    ∧ samplePairs =
        [("WEBDAV_STOREHASH", ""), ("WEBDAV_USERNAME", ""), ("WEBDAV_PASSWORD", "")]
    ∧ Effect.runBuild ∉ (runScript e).1 := by
  have htr : runScript e =
      ([Effect.printMissingConfig, Effect.writeFile (samplePath envName) samplePairs],
        Outcome.configMissingExit) := by
    unfold runScript
    rw [ha, hc]
  refine ⟨htr, rfl, ?_⟩
  rw [htr]
  simp

theorem claim_C6_witness :
    sampleEnvMissing.argv2 = some "sandbox" ∧ sampleEnvMissing.configFile = none ∧
      runScript sampleEnvMissing =
        ([Effect.printMissingConfig, Effect.writeFile (samplePath "sandbox") samplePairs],
          Outcome.configMissingExit) :=
  ⟨rfl, rfl, (claim_C6_missing_config_template sampleEnvMissing "sandbox" rfl rfl).1⟩

/-- C5 counterexample: the claim says a run with a missing configuration
halts "without side effects (no file is written)", but the catch block
writes the sample template file: the trace of a missing-configuration
run contains a file write. -/
theorem claim_C5_counterexample :
    Effect.writeFile (samplePath "sandbox") samplePairs ∈ (runScript sampleEnvMissing).1 := by
  decide

/-- C5 (amended): for a missing or incomplete configuration the error is
reported and the run halts with no build and no remote operation; when
the configuration file is present but incomplete there is additionally
no file write, while a missing file's only side effect is the template
write. -/
theorem claim_C5_config_error_halts (e : Env) (envName : String)
    (ha : e.argv2 = some envName)
    (hc : e.configFile = none ∨ ∃ cfg, e.configFile = some cfg ∧ incompleteConfig cfg = true) :
    ((runScript e).2 = Outcome.configMissingExit ∨
      (runScript e).2 = Outcome.configIncompleteExit)
    ∧ (∀ x ∈ (runScript e).1, isMkdirE x = false ∧ isUploadE x = false ∧ x ≠ Effect.runBuild)
    ∧ (Effect.printMissingConfig ∈ (runScript e).1 ∨
        Effect.printIncompleteConfig ∈ (runScript e).1)
    ∧ (∀ cfg, e.configFile = some cfg → ∀ x ∈ (runScript e).1, isWriteE x = false) := by
  rcases hc with hc | ⟨cfg, hc, hinc⟩
  · have htr : runScript e =
        ([Effect.printMissingConfig, Effect.writeFile (samplePath envName) samplePairs],
          Outcome.configMissingExit) := by
      unfold runScript
      rw [ha, hc]
    rw [htr]
    refine ⟨Or.inl rfl, ?_, Or.inl (by simp), ?_⟩
    · intro x hx
      fin_cases hx <;> simp [isMkdirE, isUploadE]
    · intro cfg hcfg
      rw [hc] at hcfg
      exact absurd hcfg (by simp)
  · have htr : runScript e = ([Effect.printIncompleteConfig], Outcome.configIncompleteExit) := by
      simp [runScript, ha, hc, hinc]
    rw [htr]
    refine ⟨Or.inr rfl, ?_, Or.inr (by simp), ?_⟩
    · intro x hx
      fin_cases hx <;> simp [isMkdirE, isUploadE]
    · intro cfg' _ x hx
      fin_cases hx <;> simp [isWriteE]

theorem claim_C5_witness :
    (runScript sampleEnvMissing).2 = Outcome.configMissingExit ∨
      (runScript sampleEnvMissing).2 = Outcome.configIncompleteExit :=
  (claim_C5_config_error_halts sampleEnvMissing "sandbox" rfl (Or.inl rfl)).1

/-- C7: when the build exits non-zero, the run's whole trace is the
build attempt: no remote directory is created and no upload is
attempted, because the failed `Listr` task stops the pipeline before the
Pre-Deploy Setup and Deploy Checkout tasks. -/
theorem claim_C7_build_failure_stops (e : Env) (envName : String) (cfg : Config) (msg : String)
    (ha : e.argv2 = some envName) (hc : e.configFile = some cfg)
    (hcomplete : incompleteConfig cfg = false) (hb : e.buildResult = Except.error msg) :
    runScript e = ([Effect.runBuild], Outcome.failed msg)
    ∧ ∀ x ∈ (runScript e).1, isMkdirE x = false ∧ isUploadE x = false := by
  have htr : runScript e = ([Effect.runBuild], Outcome.failed msg) := by
    simp [runScript, ha, hc, hcomplete, hb]
  refine ⟨htr, ?_⟩
  rw [htr]
  intro x hx
  fin_cases hx <;> simp [isMkdirE, isUploadE]

theorem claim_C7_witness :
    runScript sampleEnvBuildFail = ([Effect.runBuild], Outcome.failed "build broke") :=
  (claim_C7_build_failure_stops sampleEnvBuildFail "sandbox" okConfig "build broke"
    rfl rfl rfl rfl).1

/-- C1: the claim is violated by the code. With two files whose uploads
settle at ticks 5 (fulfilled) and 1 (rejected), the batch promise built
by `Promise.all(promises).finally(resolve).catch(reject)` settles at
tick 1 — at the first rejection, before the other upload has completed
(`Promise.all` short-circuits) — and it settles *fulfilled*: the
`finally` callback `resolve` wins over the later `reject`, so the error
is not propagated at all. -/
theorem claim_C1_code_bug :
    uploadBatchSettle ["a.js", "b.css"] failingUploadResult = (1, POutcome.fulfilled)
    ∧ (failingUploadResult "a.js").1 = 5 ∧ (1 : Nat) < 5 := by
  decide

/-- The trace and outcome of a run in which every stage up to the
uploads succeeds: both `UploadFiles` promises fulfill (they always do),
so all three tasks resolve and `finished` prints the banner. -/
theorem runScript_success (e : Env) (envName : String) (cfg : Config)
    (fs gs : List String)
    (ha : e.argv2 = some envName) (hc : e.configFile = some cfg)
    (hcomplete : incompleteConfig cfg = false)
    (hb : e.buildResult = Except.ok ()) (hm1 : e.mkdirRootResult = Except.ok ())
    (hm2 : e.mkdirStaticResult = Except.ok ())
    (hl1 : e.listDistResult = Except.ok fs) (hl2 : e.listStaticResult = Except.ok gs) :
    runScript e =
      ([Effect.runBuild, Effect.mkdir (destFolder e.now),
        Effect.mkdir (destFolder e.now ++ "/static"),
        Effect.listDir distFolder, Effect.listDir distStaticFolder]
        ++ (uploadEffects (destFolder e.now) fs
          ++ (uploadEffects (destFolder e.now ++ "/static") gs
            ++ [Effect.printBanner])), Outcome.success) := by
  simp [runScript, ha, hc, hcomplete, hb, hm1, hm2, hl1, hl2, uploadBatchSettle_fulfilled]

/-- Every effect one `UploadFiles` call issues is an upload, so the
upload count of a batch is its number of dot-named entries. -/
theorem countP_isUploadE_uploadEffects (dd : String) (ls : List String) :
    (uploadEffects dd ls).countP isUploadE = ls.countP hasDot := by
  unfold uploadEffects
  rw [List.countP_map]
  have h1 : (isUploadE ∘ fun f => Effect.upload dd f) = fun _ => true := funext fun _ => rfl
  rw [h1, congrFun List.countP_true, List.countP_eq_length_filter]

/-- C2: the promise `UploadFiles` returns fulfills whatever the
individual uploads do (the `finally(resolve)` callback settles it
fulfilled even when `Promise.all` rejects), so a failed upload does not
stop the pipeline: a run that reaches the transfer stage ends in
success and prints the banner no matter what `uploadResult` says. -/
theorem claim_C2_upload_promise_always_fulfills (e : Env) (envName : String) (cfg : Config)
    (fs gs : List String)
    (ha : e.argv2 = some envName) (hc : e.configFile = some cfg)
    (hcomplete : incompleteConfig cfg = false)
    (hb : e.buildResult = Except.ok ()) (hm1 : e.mkdirRootResult = Except.ok ())
    (hm2 : e.mkdirStaticResult = Except.ok ())
    (hl1 : e.listDistResult = Except.ok fs) (hl2 : e.listStaticResult = Except.ok gs) :
    (∀ ps : List (Nat × Except String Unit), (uploadFilesSettle ps).2 = POutcome.fulfilled)
    ∧ (runScript e).2 = Outcome.success
    ∧ Effect.printBanner ∈ (runScript e).1 := by
  refine ⟨uploadFilesSettle_fulfilled, ?_, ?_⟩ <;>
    rw [runScript_success e envName cfg fs gs ha hc hcomplete hb hm1 hm2 hl1 hl2] <;>
    simp

theorem claim_C2_witness :
    (uploadFilesSettle [(1, Except.error "403")]).2 = POutcome.fulfilled
    ∧ (runScript sampleEnvFailUpload).2 = Outcome.success
    ∧ Effect.printBanner ∈ (runScript sampleEnvFailUpload).1 :=
  ⟨(claim_C2_upload_promise_always_fulfills sampleEnvFailUpload "sandbox" okConfig
      ["auto-loader.js", "static"] ["main.css"] rfl rfl rfl rfl rfl rfl rfl rfl).1 _,
    (claim_C2_upload_promise_always_fulfills sampleEnvFailUpload "sandbox" okConfig
      ["auto-loader.js", "static"] ["main.css"] rfl rfl rfl rfl rfl rfl rfl rfl).2.1,
    (claim_C2_upload_promise_always_fulfills sampleEnvFailUpload "sandbox" okConfig
      ["auto-loader.js", "static"] ["main.css"] rfl rfl rfl rfl rfl rfl rfl rfl).2.2⟩

/-- C10: in a run that reaches the transfer stage, `ctx.fileCount`
(the dot-named entries of the two concatenated listings) equals the
number of upload operations attempted across both `UploadFiles` calls. -/
theorem claim_C10_filecount_matches_uploads (e : Env) (envName : String) (cfg : Config)
    (fs gs : List String)
    (ha : e.argv2 = some envName) (hc : e.configFile = some cfg)
    (hcomplete : incompleteConfig cfg = false)
    (hb : e.buildResult = Except.ok ()) (hm1 : e.mkdirRootResult = Except.ok ())
    (hm2 : e.mkdirStaticResult = Except.ok ())
    (hl1 : e.listDistResult = Except.ok fs) (hl2 : e.listStaticResult = Except.ok gs) :
    (runScript e).1.countP isUploadE = fileCount fs gs := by
  rw [runScript_success e envName cfg fs gs ha hc hcomplete hb hm1 hm2 hl1 hl2]
  have h2 : fileCount fs gs = fs.countP hasDot + gs.countP hasDot := by
    simp [fileCount, List.filter_append, List.length_append, List.countP_eq_length_filter]
  rw [h2]
  simp [List.countP_append, List.countP_cons, countP_isUploadE_uploadEffects, isUploadE]

theorem claim_C10_witness :
    (runScript sampleEnvFailUpload).1.countP isUploadE =
      fileCount ["auto-loader.js", "static"] ["main.css"] :=
  claim_C10_filecount_matches_uploads sampleEnvFailUpload "sandbox" okConfig
    ["auto-loader.js", "static"] ["main.css"] rfl rfl rfl rfl rfl rfl rfl rfl

/-- C4: one `UploadFiles` call uploads exactly the entries whose names
contain a dot — the script's notion of "has an extension", its proxy
for "is a file" — and skips the rest: an upload for `f` is attempted
iff `f` is listed and dot-named, the number of attempts is the number N
of dot-named entries, and N plus the number M of skipped entries is the
total number of entries. -/
theorem claim_C4_extension_filter (dest : String) (files : List String) :
    (∀ f, Effect.upload dest f ∈ uploadEffects dest files ↔ f ∈ files ∧ hasDot f = true)
    ∧ (uploadEffects dest files).length = files.countP hasDot
    ∧ files.countP hasDot + files.countP (fun f => !hasDot f) = files.length := by
  refine ⟨?_, ?_, ?_⟩
  · intro f
    simp [uploadEffects, List.mem_filter]
  · simp [uploadEffects, List.countP_eq_length_filter]
  · induction files with
    | nil => rfl
    | cons a l ih =>
      by_cases h : hasDot a = true <;> simp [List.countP_cons, h] <;> omega

/-- A string never equals itself extended by `"/static"`: the two
upload destinations of one run are distinct. -/
theorem ne_append_static (s : String) : s ≠ s ++ "/static" := by
  intro h
  have hlen := congrArg String.length h
  rw [String.length_append] at hlen
  have h7 : ("/static" : String).length = 7 := rfl
  omega

/-- If a trace splits into a region with no `Q`-effects followed by a
region with no `P`-effects, every `P`-effect precedes every `Q`-effect. -/
theorem allBefore_of_split (P Q : Effect → Bool) (a : List Effect) :
    ∀ b : List Effect, (∀ x ∈ a, Q x = false) → (∀ x ∈ b, P x = false) →
      allBefore P Q (a ++ b) := by
  induction a with
  | nil =>
    intro b _ hb i j hi hj hP _
    have hP' : P (b.get ⟨i, hi⟩) = true := hP
    rw [hb _ (List.get_mem b i hi)] at hP'
    exact absurd hP' (by simp)
  | cons x a ih =>
    intro b ha hb i j hi hj hP hQ
    cases j with
    | zero =>
      have hQ' : Q x = true := hQ
      rw [ha x (List.mem_cons_self x a)] at hQ'
      exact absurd hQ' (by simp)
    | succ j' =>
      cases i with
      | zero => omega
      | succ i' =>
        have hlt := ih b (fun y hy => ha y (List.mem_cons_of_mem x hy)) hb i' j'
          (by simpa using hi) (by simpa using hj) hP hQ
        omega

/-- A trace with no `Q`-effects vacuously orders `P` before `Q`. -/
theorem allBefore_of_no_q (P Q : Effect → Bool) (tr : List Effect)
    (h : ∀ x ∈ tr, Q x = false) : allBefore P Q tr := by
  intro i j hi hj _ hQ
  exact absurd hQ (by rw [h _ (List.get_mem _ _ _)]; simp)

/-- The three C8 ordering properties hold of any trace containing no
upload at all. -/
theorem c8_of_no_uploads (tr : List Effect) (d : String)
    (h : ∀ x ∈ tr, isUploadE x = false) :
    allBefore isMkdirE isUploadE tr
    ∧ allBefore (isUploadTo d) (isUploadTo (d ++ "/static")) tr
    ∧ ((∃ x ∈ tr, isUploadE x = true) →
        Effect.mkdir d ∈ tr ∧ Effect.mkdir (d ++ "/static") ∈ tr) := by
  refine ⟨allBefore_of_no_q _ _ _ h, allBefore_of_no_q _ _ _ ?_, ?_⟩
  · intro x hx
    have hE := h x hx
    cases x <;> simp_all [isUploadE, isUploadTo]
  · rintro ⟨x, hx, hP⟩
    exact absurd hP (by simp [h x hx])

/-- C8: in every run, all remote directory creations precede all
uploads; every upload into the root destination precedes every upload
into its nested static destination (the two `UploadFiles` calls are
awaited one after the other); and whenever any upload occurs at all,
both the destination directory and its nested `static` directory were
created during the run. -/
theorem claim_C8_provision_before_upload (e : Env) :
    allBefore isMkdirE isUploadE (runScript e).1
    ∧ allBefore (isUploadTo (destFolder e.now))
        (isUploadTo (destFolder e.now ++ "/static")) (runScript e).1
    ∧ ((∃ x ∈ (runScript e).1, isUploadE x = true) →
        Effect.mkdir (destFolder e.now) ∈ (runScript e).1 ∧
        Effect.mkdir (destFolder e.now ++ "/static") ∈ (runScript e).1) := by
  rcases he : e.argv2 with _ | envName
  · have htr : (runScript e).1 = [Effect.printUsage] := by
      simp [runScript, he]
    rw [htr]
    exact c8_of_no_uploads _ _ (by intro x hx; fin_cases hx <;> rfl)
  rcases hcf : e.configFile with _ | cfg
  · have htr : (runScript e).1 =
        [Effect.printMissingConfig, Effect.writeFile (samplePath envName) samplePairs] := by
      simp [runScript, he, hcf]
    rw [htr]
    exact c8_of_no_uploads _ _ (by intro x hx; fin_cases hx <;> rfl)
  cases hinc : incompleteConfig cfg with
  | true =>
    have htr : (runScript e).1 = [Effect.printIncompleteConfig] := by
      simp [runScript, he, hcf, hinc]
    rw [htr]
    exact c8_of_no_uploads _ _ (by intro x hx; fin_cases hx <;> rfl)
  | false =>
    cases hb : e.buildResult with
    | error msg =>
      have htr : (runScript e).1 = [Effect.runBuild] := by
        simp [runScript, he, hcf, hinc, hb]
      rw [htr]
      exact c8_of_no_uploads _ _ (by intro x hx; fin_cases hx <;> rfl)
    | ok u0 =>
      cases hm1 : e.mkdirRootResult with
      | error msg =>
        have htr : (runScript e).1 = [Effect.runBuild, Effect.mkdir (destFolder e.now)] := by
          simp [runScript, he, hcf, hinc, hb, hm1]
        rw [htr]
        exact c8_of_no_uploads _ _ (by intro x hx; fin_cases hx <;> rfl)
      | ok u1 =>
        cases hm2 : e.mkdirStaticResult with
        | error msg =>
          have htr : (runScript e).1 = [Effect.runBuild, Effect.mkdir (destFolder e.now),
              Effect.mkdir (destFolder e.now ++ "/static")] := by
            simp [runScript, he, hcf, hinc, hb, hm1, hm2]
          rw [htr]
          exact c8_of_no_uploads _ _ (by intro x hx; fin_cases hx <;> rfl)
        | ok u2 =>
          cases hl1 : e.listDistResult with
          | error msg =>
            have htr : (runScript e).1 = [Effect.runBuild, Effect.mkdir (destFolder e.now),
                Effect.mkdir (destFolder e.now ++ "/static"), Effect.listDir distFolder] := by
              simp [runScript, he, hcf, hinc, hb, hm1, hm2, hl1]
            rw [htr]
            exact c8_of_no_uploads _ _ (by intro x hx; fin_cases hx <;> rfl)
          | ok fs =>
            cases hl2 : e.listStaticResult with
            | error msg =>
              have htr : (runScript e).1 = [Effect.runBuild, Effect.mkdir (destFolder e.now),
                  Effect.mkdir (destFolder e.now ++ "/static"), Effect.listDir distFolder,
                  Effect.listDir distStaticFolder] := by
                simp [runScript, he, hcf, hinc, hb, hm1, hm2, hl1, hl2]
              rw [htr]
              exact c8_of_no_uploads _ _ (by intro x hx; fin_cases hx <;> rfl)
            | ok gs =>
              have htr1 : (runScript e).1 =
                  [Effect.runBuild, Effect.mkdir (destFolder e.now),
                    Effect.mkdir (destFolder e.now ++ "/static"),
                    Effect.listDir distFolder, Effect.listDir distStaticFolder]
                  ++ (uploadEffects (destFolder e.now) fs
                    ++ (uploadEffects (destFolder e.now ++ "/static") gs
                      ++ [Effect.printBanner])) := by
                rw [runScript_success e envName cfg fs gs he hcf hinc hb hm1 hm2 hl1 hl2]
              refine ⟨?_, ?_, ?_⟩
              · rw [htr1]
                refine allBefore_of_split _ _ _ _ ?_ ?_
                · intro x hx
                  fin_cases hx <;> rfl
                · intro x hx
                  rcases List.mem_append.1 hx with hx | hx
                  · simp only [uploadEffects] at hx
                    rcases List.mem_map.1 hx with ⟨f, _, rfl⟩
                    rfl
                  · rcases List.mem_append.1 hx with hx | hx
                    · simp only [uploadEffects] at hx
                      rcases List.mem_map.1 hx with ⟨f, _, rfl⟩
                      rfl
                    · fin_cases hx
                      rfl
              · have htr2 : (runScript e).1 =
                    ([Effect.runBuild, Effect.mkdir (destFolder e.now),
                      Effect.mkdir (destFolder e.now ++ "/static"),
                      Effect.listDir distFolder, Effect.listDir distStaticFolder]
                      ++ uploadEffects (destFolder e.now) fs)
                    ++ (uploadEffects (destFolder e.now ++ "/static") gs
                      ++ [Effect.printBanner]) := by
                  rw [htr1, List.append_assoc]
                rw [htr2]
                refine allBefore_of_split _ _ _ _ ?_ ?_
                · intro x hx
                  rcases List.mem_append.1 hx with hx | hx
                  · fin_cases hx <;> rfl
                  · simp only [uploadEffects] at hx
                    rcases List.mem_map.1 hx with ⟨f, _, rfl⟩
                    simp [isUploadTo]
                    exact ne_append_static (destFolder e.now)
                · intro x hx
                  rcases List.mem_append.1 hx with hx | hx
                  · simp only [uploadEffects] at hx
                    rcases List.mem_map.1 hx with ⟨f, _, rfl⟩
                    simp [isUploadTo]
                    exact (ne_append_static (destFolder e.now)).symm
                  · fin_cases hx
                    rfl
              · intro _
                rw [htr1]
                constructor <;> simp

theorem claim_C8_witness :
    Effect.mkdir (destFolder sampleEnvFailUpload.now) ∈ (runScript sampleEnvFailUpload).1 ∧
      Effect.mkdir (destFolder sampleEnvFailUpload.now ++ "/static") ∈
        (runScript sampleEnvFailUpload).1 :=
  (claim_C8_provision_before_upload sampleEnvFailUpload).2.2
    ⟨Effect.upload (destFolder sampleEnvFailUpload.now) "auto-loader.js", by decide, rfl⟩

/-! ## Lemmas about the identifier generator -/

theorem digitChar_ten_plus (n : Nat) : digitChar (n + 10) = '*' := rfl

theorem digitChar_lt_digitChar {a b : Nat} (hab : a < b) (hb : b ≤ 9) :
    digitChar a < digitChar b := by
  have ha : a ≤ 9 := by omega
  interval_cases a <;> interval_cases b <;> decide

theorem digitChar_ne_colon (n : Nat) : digitChar n ≠ ':' := by
  rcases Nat.lt_or_ge n 10 with h | h
  · interval_cases n <;> decide
  · obtain ⟨m, rfl⟩ : ∃ m, n = m + 10 := ⟨n - 10, by omega⟩
    rw [digitChar_ten_plus]
    decide

theorem digitChar_ne_upperT (n : Nat) : digitChar n ≠ 'T' := by
  rcases Nat.lt_or_ge n 10 with h | h
  · interval_cases n <;> decide
  · obtain ⟨m, rfl⟩ : ∃ m, n = m + 10 := ⟨n - 10, by omega⟩
    rw [digitChar_ten_plus]
    decide

theorem digitChar_ne_dot (n : Nat) : digitChar n ≠ '.' := by
  rcases Nat.lt_or_ge n 10 with h | h
  · interval_cases n <;> decide
  · obtain ⟨m, rfl⟩ : ∃ m, n = m + 10 := ⟨n - 10, by omega⟩
    rw [digitChar_ten_plus]
    decide

theorem replaceColons_nil : replaceColons [] = [] := rfl

theorem replaceColons_append (xs ys : List Char) :
    replaceColons (xs ++ ys) = replaceColons xs ++ replaceColons ys :=
  List.map_append _ _ _

theorem replaceColons_cons_ne {c : Char} (h : c ≠ ':') (cs : List Char) :
    replaceColons (c :: cs) = c :: replaceColons cs := by
  simp [replaceColons, h]

theorem replaceColons_cons_colon (cs : List Char) :
    replaceColons (':' :: cs) = '_' :: replaceColons cs := by
  simp [replaceColons]

theorem replaceColons_pad2 (n : Nat) : replaceColons (pad2 n) = pad2 n := by
  simp [replaceColons, pad2, digitChar_ne_colon]

theorem replaceColons_pad3 (n : Nat) : replaceColons (pad3 n) = pad3 n := by
  simp [replaceColons, pad3, pad2, digitChar_ne_colon]

theorem replaceColons_pad4 (n : Nat) : replaceColons (pad4 n) = pad4 n := by
  rw [pad4, replaceColons_append, replaceColons_pad2, replaceColons_pad2]

theorem removeFirstT_cons_ne {c : Char} (h : c ≠ 'T') (cs : List Char) :
    removeFirstT (c :: cs) = c :: removeFirstT cs := by
  simp [removeFirstT, h]

theorem removeFirstT_cons_upperT (cs : List Char) : removeFirstT ('T' :: cs) = cs := by
  simp [removeFirstT]

theorem removeFirstT_pad2 (n : Nat) (ys : List Char) :
    removeFirstT (pad2 n ++ ys) = pad2 n ++ removeFirstT ys := by
  simp [pad2, removeFirstT_cons_ne (digitChar_ne_upperT _)]

theorem removeFirstT_pad4 (n : Nat) (ys : List Char) :
    removeFirstT (pad4 n ++ ys) = pad4 n ++ removeFirstT ys := by
  rw [pad4, List.append_assoc, removeFirstT_pad2, removeFirstT_pad2, List.append_assoc]

theorem stripFromDot_cons_ne {c : Char} (h : c ≠ '.') (cs : List Char) :
    stripFromDot (c :: cs) = c :: stripFromDot cs := by
  simp [stripFromDot, h]

theorem stripFromDot_cons_dot {cs : List Char} (h : cs ≠ []) :
    stripFromDot ('.' :: cs) = [] := by
  simp [stripFromDot, h]

theorem stripFromDot_pad2 (n : Nat) (ys : List Char) :
    stripFromDot (pad2 n ++ ys) = pad2 n ++ stripFromDot ys := by
  simp [pad2, stripFromDot_cons_ne (digitChar_ne_dot _)]

theorem stripFromDot_pad4 (n : Nat) (ys : List Char) :
    stripFromDot (pad4 n ++ ys) = pad4 n ++ stripFromDot ys := by
  rw [pad4, List.append_assoc, stripFromDot_pad2, stripFromDot_pad2, List.append_assoc]

/-- The identifier in closed form: the ISO timestamp with the colons
turned into underscores, the date/time separator gone, and everything
from the fractional-seconds dot on (the milliseconds and the zone
marker) stripped. -/
theorem genId_eq (dt : DateTime) :
    genId dt = pad4 dt.year ++ '-' :: (pad2 dt.month ++ '-' :: (pad2 dt.day
      ++ (pad2 dt.hour ++ '_' :: (pad2 dt.minute ++ '_' :: pad2 dt.second)))) := by
  unfold genId
  have h1 : replaceColons (isoChars dt) =
      pad4 dt.year ++ '-' :: (pad2 dt.month ++ '-' :: (pad2 dt.day
        ++ 'T' :: (pad2 dt.hour ++ '_' :: (pad2 dt.minute ++ '_' :: (pad2 dt.second
          ++ '.' :: (pad3 dt.ms ++ ['Z'])))))) := by
    simp [isoChars, replaceColons_append, replaceColons_pad4, replaceColons_pad2,
      replaceColons_pad3, replaceColons_cons_ne, replaceColons_cons_colon, replaceColons_nil]
  rw [h1]
  have h2 : removeFirstT (pad4 dt.year ++ '-' :: (pad2 dt.month ++ '-' :: (pad2 dt.day
      ++ 'T' :: (pad2 dt.hour ++ '_' :: (pad2 dt.minute ++ '_' :: (pad2 dt.second
        ++ '.' :: (pad3 dt.ms ++ ['Z']))))))) =
      pad4 dt.year ++ '-' :: (pad2 dt.month ++ '-' :: (pad2 dt.day
        ++ (pad2 dt.hour ++ '_' :: (pad2 dt.minute ++ '_' :: (pad2 dt.second
          ++ '.' :: (pad3 dt.ms ++ ['Z'])))))) := by
    simp [removeFirstT_pad4, removeFirstT_pad2, removeFirstT_cons_ne, removeFirstT_cons_upperT]
  rw [h2]
  simp [stripFromDot_pad4, stripFromDot_pad2, stripFromDot_cons_ne, stripFromDot_cons_dot,
    pad3]

theorem lexLt_cons_same (c : Char) (xs ys : List Char) :
    lexLt (c :: xs) (c :: ys) = lexLt xs ys := by
  simp [lexLt]

theorem lexLt_append_same (xs ys zs : List Char) :
    lexLt (xs ++ ys) (xs ++ zs) = lexLt ys zs := by
  induction xs with
  | nil => rfl
  | cons c xs ih => rw [List.cons_append, List.cons_append, lexLt_cons_same, ih]

theorem lexLt_append_of_lt {xs ys : List Char} (us vs : List Char)
    (hlen : xs.length = ys.length) (h : lexLt xs ys = true) :
    lexLt (xs ++ us) (ys ++ vs) = true := by
  induction xs generalizing ys with
  | nil =>
    cases ys with
    | nil => simp [lexLt] at h
    | cons b bs => simp at hlen
  | cons a as ih =>
    cases ys with
    | nil => simp at hlen
    | cons b bs =>
      rw [List.cons_append, List.cons_append]
      by_cases hab : a < b
      · simp [lexLt, hab]
      · by_cases heq : a = b
        · subst heq
          rw [lexLt_cons_same] at h
          rw [lexLt_cons_same]
          exact ih (by simpa using hlen) h
        · simp [lexLt, hab, heq] at h

theorem pad2_lexLt {a b : Nat} (hab : a < b) (hb : b ≤ 99) :
    lexLt (pad2 a) (pad2 b) = true := by
  have hdiv : a / 10 ≤ b / 10 := Nat.div_le_div_right (Nat.le_of_lt hab)
  rcases Nat.lt_or_ge (a / 10) (b / 10) with h10 | h10
  · have hb10 : b / 10 ≤ 9 := by omega
    have hlt := digitChar_lt_digitChar h10 hb10
    simp [pad2, lexLt, hlt]
  · have heq : a / 10 = b / 10 := by omega
    have hmod : a % 10 < b % 10 := by omega
    have hlt := digitChar_lt_digitChar hmod (by omega)
    rw [pad2, pad2, heq]
    simp [lexLt, hlt]

theorem pad4_lexLt {a b : Nat} (hab : a < b) (hb : b ≤ 9999) :
    lexLt (pad4 a) (pad4 b) = true := by
  have hdiv : a / 100 ≤ b / 100 := Nat.div_le_div_right (Nat.le_of_lt hab)
  rcases Nat.lt_or_ge (a / 100) (b / 100) with h100 | h100
  · rw [pad4, pad4]
    exact lexLt_append_of_lt _ _ rfl (pad2_lexLt h100 (by omega))
  · have heq : a / 100 = b / 100 := by omega
    have hmod : a % 100 < b % 100 := by omega
    rw [pad4, pad4, heq, lexLt_append_same]
    exact pad2_lexLt hmod (by omega)

/-- C3 counterexample: two valid instants 800 ms apart inside the same
second — the second one strictly later — produce the *same* identifier
(the generator strips fractional seconds), so the later invocation's
identifier is not lexicographically greater and the two collide. -/
theorem claim_C3_counterexample :
    ValidDT dtA ∧ ValidDT dtB ∧ toMsKey dtA < toMsKey dtB
    ∧ genId dtA = genId dtB ∧ lexLt (genId dtA) (genId dtB) = false := by
  decide

/-- C3 (amended): the identifier is strictly monotone in the clock time
truncated to whole seconds: if the second invocation happens in a
strictly later second, its identifier is lexicographically strictly
greater (hence distinct); within one second identifiers can repeat. -/
theorem claim_C3_id_monotone (a b : DateTime) (ha : ValidDT a) (hb : ValidDT b)
    (h : toSecKey a < toSecKey b) : lexLt (genId a) (genId b) = true := by
  obtain ⟨hy, hmo1, hmo2, hd1, hd2, hh, hmi, hs, _⟩ := ha
  obtain ⟨hy', hmo1', hmo2', hd1', hd2', hh', hmi', hs', _⟩ := hb
  rw [genId_eq, genId_eq]
  have hc : a.year < b.year ∨ (a.year = b.year ∧ (a.month < b.month ∨ (a.month = b.month ∧
      (a.day < b.day ∨ (a.day = b.day ∧ (a.hour < b.hour ∨ (a.hour = b.hour ∧
      (a.minute < b.minute ∨ (a.minute = b.minute ∧ a.second < b.second))))))))) := by
    unfold toSecKey at h
    omega
  rcases hc with hc | ⟨e1, hc⟩
  · exact lexLt_append_of_lt _ _ rfl (pad4_lexLt hc (by omega))
  rw [e1, lexLt_append_same, lexLt_cons_same]
  rcases hc with hc | ⟨e2, hc⟩
  · exact lexLt_append_of_lt _ _ rfl (pad2_lexLt hc (by omega))
  rw [e2, lexLt_append_same, lexLt_cons_same]
  rcases hc with hc | ⟨e3, hc⟩
  · exact lexLt_append_of_lt _ _ rfl (pad2_lexLt hc (by omega))
  rw [e3, lexLt_append_same]
  rcases hc with hc | ⟨e4, hc⟩
  · exact lexLt_append_of_lt _ _ rfl (pad2_lexLt hc (by omega))
  rw [e4, lexLt_append_same, lexLt_cons_same]
  rcases hc with hc | ⟨e5, hc⟩
  · exact lexLt_append_of_lt _ _ rfl (pad2_lexLt hc (by omega))
  rw [e5, lexLt_append_same, lexLt_cons_same]
  exact pad2_lexLt hc (by omega)

theorem claim_C3_witness :
    ValidDT dtA ∧ ValidDT dtC ∧ toSecKey dtA < toSecKey dtC
    ∧ lexLt (genId dtA) (genId dtC) = true :=
  ⟨by decide, by decide, by decide,
    claim_C3_id_monotone dtA dtC (by decide) (by decide) (by decide)⟩

end Deploy
